import Mathlib

/-!
# InstalledIntegration (installedIntegration.jsx)

A shallow embedding of the React component `InstalledIntegration`:
its props and state, the two predicates `isEnabledForProject` and
`hasConfiguration`, the handler `onConfigure`, the two arrow functions
that `render` creates, and the element trees built by `render` and
`renderConfiguration`, with the string conversion of `integration.id`
that the two template literals of `renderConfiguration` perform.

Conventions of the embedding.

* A method of the class is a function of `this : Instance` (its props
  and its state).
* An event handler is a function of the instance at the time of the
  event. It either throws or returns the calls it made to callbacks of
  the parent together with the state it leaves behind.
* `cond && element` in JSX is an `Option`: `none` is the `false` the
  conjunction evaluates to, which React does not render.
-/

namespace InstalledIntegration

/-! ## Values -/

/-- JSON data as the API delivers it. A number is carried by the text
that JavaScript prints for it; the component does no arithmetic. -/
inductive Json where
  | null
  | bool (b : Bool)
  | num (text : String)
  | str (s : String)
  | arr (items : List Json)
  | obj (members : List (String × Json))

/-- What a property read `o[k]` on a plain object can yield: `undefined`,
an own property (JSON data), or a member inherited from
`Object.prototype`. -/
inductive JSValue where
  | undefined
  | json (j : Json)
  | builtin (name : String)

/-- The operands of `x !== undefined`, negated: is the value `undefined`. -/
def JSValue.isUndefined : JSValue → Bool
  | .undefined => true
  | .json _ => false
  | .builtin _ => false

/-- A property of the integration object that may be absent: absent
reads as `undefined`. -/
def JSValue.ofOption : Option Json → JSValue
  | none => .undefined
  | some j => .json j

/-- The property names every plain object inherits from
`Object.prototype`. -/
def objectPrototypeKeys : List String :=
  ["constructor", "hasOwnProperty", "isPrototypeOf", "propertyIsEnumerable",
   "toLocaleString", "toString", "valueOf", "__proto__",
   "__defineGetter__", "__defineSetter__", "__lookupGetter__", "__lookupSetter__"]

/-- The read `o[key]` on a plain object whose own properties are
`members`: an own property wins, then the prototype, else `undefined`. -/
def getProperty (members : List (String × Json)) (key : String) : JSValue :=
  match members.lookup key with
  | some v => .json v
  | none => if objectPrototypeKeys.elem key then .builtin key else .undefined

/-- String conversion of an optional string prop, as a property key and
inside a template literal: a missing prop is the text `undefined`. -/
def stringOfProp : Option String → String
  | none => "undefined"
  | some s => s

/-- An exception thrown while the component runs. -/
inductive JSError where
  | typeError (message : String)

/-- The exception of a string conversion that finds no primitive value. -/
def noPrimitive : JSError :=
  .typeError "Cannot convert object to primitive value"

mutual
/-- String conversion of JSON data inside a template literal. A plain
object is converted by the `toString` it inherits; an own member named
`toString` hides that one, is itself no function, and the inherited
`valueOf` returns the object, so the conversion throws. An array is
converted by joining its items. -/
def Json.toTemplate : Json → Except JSError String
  | .null => .ok "null"
  | .bool true => .ok "true"
  | .bool false => .ok "false"
  | .num text => .ok text
  | .str s => .ok s
  | .arr items => Json.joinItems items
  | .obj members =>
    if (members.lookup "toString").isSome then .error noPrimitive
    else .ok "[object Object]"
/-- The comma join of an array, as `Array.prototype.join` does it: `null`
items are empty, the others are converted in order. -/
def Json.joinItems : List Json → Except JSError String
  | [] => .ok ""
  | [.null] => .ok ""
  | [x] => Json.toTemplate x
  | .null :: rest =>
    match Json.joinItems rest with
    | .error e => .error e
    | .ok tail => .ok ("," ++ tail)
  | x :: rest =>
    match Json.toTemplate x with
    | .error e => .error e
    | .ok head =>
      match Json.joinItems rest with
      | .error e => .error e
      | .ok tail => .ok (head ++ "," ++ tail)
end

/-! ## Props and state -/

/-- A configuration field descriptor: a plain object, read through its
`name` property. -/
abbrev ConfigField := List (String × Json)

/-- The integration descriptor (`props.integration`). -/
structure Integration where
  id : Json
  name : Option Json
  icon : Option Json
  domain_name : Option Json
  config_project : List ConfigField
  config_organization : List ConfigField
  config_data_projects : List (String × Json)
  config_data : Option Json

/-- A function value supplied by the parent component. -/
structure Callback where
  ident : Nat

/-- The props, as `propTypes` declares them: `projectId`, `isEnabling`
and `onToggleEnabled` are not required. -/
structure Props where
  orgId : String
  projectId : Option String
  provider : Json
  integration : Integration
  isEnabling : Option Bool
  onRemove : Callback
  onToggleEnabled : Option Callback

/-- The component state. -/
structure State where
  configuring : Bool

/-- A mounted component: `this.props` and `this.state`. -/
structure Instance where
  props : Props
  state : State

/-- The constructor: `this.state = {configuring: false}`. -/
def Instance.mount (p : Props) : Instance :=
  { props := p, state := { configuring := false } }

/-- The parent re-renders the component with new props. The class
defines no lifecycle method, so the state is kept. -/
def Instance.setProps (this : Instance) (p : Props) : Instance :=
  { this with props := p }

/-! ## Handlers -/

/-- A call made by the component to a callback prop, with its arguments. -/
inductive Call where
  | onRemove (args : List JSValue)
  | onToggleEnabled (args : List JSValue)

/-- What a handler did: the callback calls, in order, and the state after
its `setState` calls. -/
structure Outcome where
  calls : List Call
  state : State

/-- An event handler, run on the instance as it is when the event fires. -/
abbrev Handler := Instance → Except JSError Outcome

/-- The handler `onConfigure`:
`this.setState({configuring: !this.state.configuring})`. -/
def onConfigure : Handler := fun this =>
  .ok { calls := [], state := { configuring := !this.state.configuring } }

/-- The arrow function `() => this.props.onToggleEnabled(!enabled)`, with
`enabled` captured when `render` ran. Calling a missing prop throws. -/
def toggleHandler (enabled : Bool) : Handler := fun this =>
  match this.props.onToggleEnabled with
  | none => .error (.typeError "this.props.onToggleEnabled is not a function")
  | some _ => .ok { calls := [.onToggleEnabled [.json (.bool (!enabled))]], state := this.state }

/-- The arrow function `() => this.props.onRemove()`. -/
def removeHandler : Handler := fun this =>
  .ok { calls := [.onRemove []], state := this.state }

/-- React commits the state a handler leaves behind; the calls go to the
parent. -/
def Instance.dispatch (this : Instance) (h : Handler) : Except JSError Instance :=
  match h this with
  | .error e => .error e
  | .ok o => .ok { this with state := o.state }

/-- Is the call one to `props.onRemove`. -/
def Call.isRemove : Call → Bool
  | .onRemove _ => true
  | .onToggleEnabled _ => false

/-- Is the call one to `props.onToggleEnabled`. -/
def Call.isToggle : Call → Bool
  | .onRemove _ => false
  | .onToggleEnabled _ => true

/-- The number of calls to `props.onRemove` a handler run made. -/
def removeCalls : Except JSError Outcome → Nat
  | .error _ => 0
  | .ok o => o.calls.countP Call.isRemove

/-- The number of calls to `props.onToggleEnabled` a handler run made. -/
def toggleCalls : Except JSError Outcome → Nat
  | .error _ => 0
  | .ok o => o.calls.countP Call.isToggle

/-! ## Elements -/

/-- The shared props `formProps` of the two forms. -/
structure FormProps where
  hideFooter : Bool
  saveOnBlur : Bool
  allowUndo : Bool
  apiMethod : String
  dataTransformer : Json → Json

/-- One `FieldFromConfig` element. -/
structure FieldFromConfigEl where
  key : JSValue
  field : ConfigField

/-- One `Form` element. -/
structure FormEl extends FormProps where
  initialData : JSValue
  apiEndpoint : String
  children : List FieldFromConfigEl

/-- The `PanelAlert` element; `message` is the argument of `t`. -/
structure PanelAlertEl where
  alertType : String
  message : String

/-- The fragment returned by `renderConfiguration`. -/
structure ConfigurationEl where
  projectForm : FormEl
  alert : Option PanelAlertEl
  organizationForm : FormEl

/-- The `Switch` element. -/
structure SwitchEl where
  size : String
  isLoading : Option Bool
  isActive : Bool
  toggle : Handler

/-- The Configure `Button` element; `priority` is `undefined` when
`none`. -/
structure ButtonEl where
  size : String
  disabled : Bool
  priority : Option String
  onClick : Handler
  label : String

/-- The `Confirm` element around the trash button; `message` is the
argument of `t`. -/
structure ConfirmEl where
  message : String
  onConfirm : Handler
  buttonSize : String
  iconClassName : String

/-- The `PanelItem` row. -/
structure PanelItemEl where
  key : Json
  iconSrc : Option Json
  name : Option Json
  domainName : Option Json
  tooltipTitle : String
  switch : SwitchEl
  configure : Option ButtonEl
  confirm : ConfirmEl

/-- The fragment returned by `render`. Its last child is `none` when the
guard of `render` is false and otherwise the outcome of the call
`this.renderConfiguration()`: the fragment it returns or the exception it
throws. -/
structure RenderOutput where
  panelItem : PanelItemEl
  configuration : Option (Except JSError ConfigurationEl)

/-! ## Methods -/

/-- The constant `formProps` of `renderConfiguration`. -/
def formProps : FormProps :=
  { hideFooter := true
    saveOnBlur := true
    allowUndo := true
    apiMethod := "POST"
    dataTransformer := fun data => .obj [("config", data)] }

/-- The children of a form: `fields.map(field => <FieldFromConfig key={field.name} field={field} />)`. -/
def fieldElements (fields : List ConfigField) : List FieldFromConfigEl :=
  fields.map fun field => { key := getProperty field "name", field := field }

/-- The method `renderConfiguration`. The two template literals convert
`integration.id` to a string, the project form first; a conversion that
throws ends the method. -/
def renderConfiguration (this : Instance) : Except JSError ConfigurationEl :=
  let integration := this.props.integration
  let config_project := integration.config_project
  let config_organization := integration.config_organization
  match integration.id.toTemplate with
  | .error e => .error e
  | .ok projectIdText =>
    match integration.id.toTemplate with
    | .error e => .error e
    | .ok organizationIdText =>
      .ok
        { projectForm :=
            { toFormProps := formProps
              initialData := getProperty integration.config_data_projects
                (stringOfProp this.props.projectId)
              apiEndpoint := "/projects/" ++ this.props.orgId ++ "/"
                ++ stringOfProp this.props.projectId
                ++ "/integrations/" ++ projectIdText ++ "/"
              children := fieldElements config_project }
          alert :=
            if config_organization.length > 0 then
              some { alertType := "info"
                     message := "The following configurations are organization-scoped. Changing these will change the settings globally." }
            else none
          organizationForm :=
            { toFormProps := formProps
              initialData := JSValue.ofOption integration.config_data
              apiEndpoint := "/organizations/" ++ this.props.orgId ++ "/integrations/"
                ++ organizationIdText ++ "/"
              children := fieldElements config_organization } }

/-- The method `isEnabledForProject`:
`integration.config_data_projects[projectId] !== undefined`. -/
def isEnabledForProject (this : Instance) : Bool :=
  !(getProperty this.props.integration.config_data_projects
      (stringOfProp this.props.projectId)).isUndefined

/-- The method `hasConfiguration`. -/
def hasConfiguration (this : Instance) : Bool :=
  decide (this.props.integration.config_project.length > 0) ||
  decide (this.props.integration.config_organization.length > 0)

/-- The method `render`. -/
def render (this : Instance) : RenderOutput :=
  let integration := this.props.integration
  let enabled := isEnabledForProject this
  { panelItem :=
      { key := integration.id
        iconSrc := integration.icon
        name := integration.name
        domainName := integration.domain_name
        tooltipTitle := "Enable for this Project"
        switch :=
          { size := "lg"
            isLoading := this.props.isEnabling
            isActive := enabled
            toggle := toggleHandler enabled }
        configure :=
          if hasConfiguration this then
            some { size := "small"
                   disabled := !isEnabledForProject this
                   priority := if this.state.configuring then some "primary" else none
                   onClick := onConfigure
                   label := "Configure" }
          else none
        confirm :=
          { message := "Removing this inegration will disable the integration for all projects. Are you sure you want to remove this integration?"
            onConfirm := removeHandler
            buttonSize := "small"
            iconClassName := "icon icon-trash" } }
    configuration :=
      if this.state.configuring && isEnabledForProject this then
        some (renderConfiguration this)
      else none }

/-! ## The confirmation primitive -/

/-- The two ways the user can answer the confirmation dialog. -/
inductive ConfirmAnswer where
  | confirm
  | dismiss

/-- Modelled from the spec: the `Confirm` primitive (`app/components/confirm`,
not part of this file). On confirmation it calls its `onConfirm` handler
once; on dismissal it calls nothing. -/
def ConfirmEl.answer (c : ConfirmEl) : ConfirmAnswer → Handler
  | .confirm => c.onConfirm
  | .dismiss => fun this => .ok { calls := [], state := this.state }

/-! ## Sample inputs -/

/-- The integration of the example in the specification:
`{id: 1, config_project: [], config_organization: [], config_data_projects: {}}`. -/
def sampleIntegration : Integration :=
  { id := .num "1", name := none, icon := none, domain_name := none
    config_project := [], config_organization := []
    config_data_projects := [], config_data := none }

/-- Props around an integration, with both callbacks supplied. -/
def sampleProps (projectId : String) (integration : Integration) : Props :=
  { orgId := "acme", projectId := some projectId, provider := .obj []
    integration := integration, isEnabling := none
    onRemove := { ident := 0 }, onToggleEnabled := some { ident := 1 } }


/-- The sample integration, enabled for project `7` with an empty saved
configuration: `config_data_projects = {"7": {}}`. -/
def enabledIntegration : Integration :=
  { sampleIntegration with config_data_projects := [("7", .obj [])] }

/-- The sample integration with one project-scoped field. -/
def configurableIntegration : Integration :=
  { enabledIntegration with config_project := [[("name", .str "channel")]] }

/-- The sample component for project `7`, enabled and expanded. -/
def expandedSample : Instance :=
  { props := sampleProps "7" enabledIntegration, state := { configuring := true } }

/-- The sample component with the empty map and the project id
`constructor`, expanded. -/
def inheritedKeySample : Instance :=
  { props := sampleProps "constructor" sampleIntegration, state := { configuring := true } }

/-- Sample props in which the optional `onToggleEnabled` is not supplied. -/
def propsWithoutToggle : Props :=
  { sampleProps "7" enabledIntegration with onToggleEnabled := none }

/-! ## Lemmas on the property read -/

/-- An own property is what the read returns. -/
theorem getProperty_of_entry (members : List (String × Json)) (key : String) (v : Json)
    (h : members.lookup key = some v) : getProperty members key = .json v := by
  simp [getProperty, h]

/-- Away from the names of `Object.prototype`, the read is defined exactly
when the object has the own property. -/
theorem getProperty_isUndefined_of_plain (members : List (String × Json)) (key : String)
    (hk : objectPrototypeKeys.elem key = false) :
    (getProperty members key).isUndefined = (members.lookup key).isNone := by
  have hk2 : ¬ key ∈ objectPrototypeKeys := by simpa using hk
  unfold getProperty
  cases hl : members.lookup key with
  | none => simp [hk2, JSValue.isUndefined]
  | some v => simp [JSValue.isUndefined]

/-- The read of an own property is never `undefined`. -/
theorem isEnabledForProject_of_entry (this : Instance) (v : Json)
    (h : this.props.integration.config_data_projects.lookup (stringOfProp this.props.projectId) = some v) :
    isEnabledForProject this = true := by
  simp [isEnabledForProject, getProperty_of_entry _ _ v h, JSValue.isUndefined]

/-- For a project id that is not a name of `Object.prototype`, the
integration is enabled exactly when the map has an entry for it. -/
theorem isEnabledForProject_iff_entry_of_plain (this : Instance)
    (hk : objectPrototypeKeys.elem (stringOfProp this.props.projectId) = false) :
    isEnabledForProject this =
      (this.props.integration.config_data_projects.lookup (stringOfProp this.props.projectId)).isSome := by
  unfold isEnabledForProject
  rw [getProperty_isUndefined_of_plain _ _ hk]
  cases this.props.integration.config_data_projects.lookup (stringOfProp this.props.projectId) <;> rfl

/-- The example of the specification: an empty map and project `7`. -/
theorem isEnabledForProject_sample :
    isEnabledForProject (Instance.mount (sampleProps "7" sampleIntegration)) = false ∧
    hasConfiguration (Instance.mount (sampleProps "7" sampleIntegration)) = false ∧
    (render (Instance.mount (sampleProps "7" sampleIntegration))).panelItem.configure.isSome = false ∧
    isEnabledForProject (Instance.mount (sampleProps "7" enabledIntegration)) = true := by
  refine ⟨rfl, rfl, rfl, rfl⟩

/-- The value of `hasConfiguration` in terms of the two field lists. -/
theorem hasConfiguration_false_of_lists (this : Instance) :
    hasConfiguration this = false ↔
      (this.props.integration.config_project = [] ∧
        this.props.integration.config_organization = []) := by
  unfold hasConfiguration
  cases this.props.integration.config_project <;>
    cases this.props.integration.config_organization <;> simp

/-- Under the guard of `render` the last child is the outcome of
`renderConfiguration`. -/
theorem render_panel_outcome (this : Instance) (r : Except JSError ConfigurationEl) :
    (render this).configuration = some r ↔
      (this.state.configuring = true ∧ isEnabledForProject this = true ∧
        r = renderConfiguration this) := by
  unfold render
  cases hc : this.state.configuring <;> cases he : isEnabledForProject this <;>
    simp [eq_comm]

/-- The fragment `renderConfiguration` builds once the id has the text
`idText`. -/
theorem renderConfiguration_of_text (this : Instance) (idText : String)
    (h : this.props.integration.id.toTemplate = .ok idText) :
    ∃ c, renderConfiguration this = .ok c ∧
      c.projectForm.toFormProps = formProps ∧
      c.organizationForm.toFormProps = formProps ∧
      c.projectForm.initialData =
        getProperty this.props.integration.config_data_projects
          (stringOfProp this.props.projectId) ∧
      c.projectForm.apiEndpoint =
        "/projects/" ++ this.props.orgId ++ "/" ++ stringOfProp this.props.projectId ++
          "/integrations/" ++ idText ++ "/" ∧
      c.organizationForm.apiEndpoint =
        "/organizations/" ++ this.props.orgId ++ "/integrations/" ++ idText ++ "/" := by
  simp only [renderConfiguration, h]
  exact ⟨_, rfl, rfl, rfl, rfl, rfl, rfl⟩

/-- A conversion of the id that throws is the throw of
`renderConfiguration`. -/
theorem renderConfiguration_of_throw (this : Instance) (e : JSError)
    (h : this.props.integration.id.toTemplate = .error e) :
    renderConfiguration this = .error e := by
  simp only [renderConfiguration, h]

/-- String conversion on sample data: scalars, arrays with `null` items and
nested arrays, plain objects, and objects with an own `toString`. -/
theorem toTemplate_samples :
    Json.toTemplate .null = .ok "null" ∧
    Json.toTemplate (.bool true) = .ok "true" ∧
    Json.toTemplate (.bool false) = .ok "false" ∧
    Json.toTemplate (.num "42") = .ok "42" ∧
    Json.toTemplate (.str "slack") = .ok "slack" ∧
    Json.toTemplate (.arr []) = .ok "" ∧
    Json.toTemplate (.arr [.null, .num "1", .arr [.str "a", .null]]) = .ok ",1,a," ∧
    Json.toTemplate (.obj [("valueOf", .num "1")]) = .ok "[object Object]" ∧
    Json.toTemplate (.obj [("toString", .num "1")]) = .error noPrimitive ∧
    Json.toTemplate (.arr [.num "1", .obj [("toString", .null)]]) = .error noPrimitive := by
  refine ⟨rfl, rfl, rfl, rfl, rfl, rfl, rfl, rfl, rfl, rfl⟩

/-- With an id that has no string conversion `renderConfiguration` throws,
and so does the guarded call in `render`. -/
theorem renderConfiguration_throws_sample :
    renderConfiguration
        { props := sampleProps "7"
            { enabledIntegration with id := .obj [("toString", .num "1")] },
          state := { configuring := true } } = .error noPrimitive ∧
    (render
        { props := sampleProps "7"
            { enabledIntegration with id := .obj [("toString", .num "1")] },
          state := { configuring := true } }).configuration = some (.error noPrimitive) := by
  refine ⟨rfl, rfl⟩

/-- For a project id that is not a name of `Object.prototype`, the initial
data of a rendered panel is the entry of the map for that project. -/
theorem panel_initialData_entry_of_plain (this : Instance) (c : ConfigurationEl)
    (hk : objectPrototypeKeys.elem (stringOfProp this.props.projectId) = false)
    (h : (render this).configuration = some (.ok c)) :
    ∃ v, this.props.integration.config_data_projects.lookup
          (stringOfProp this.props.projectId) = some v ∧
      c.projectForm.initialData = .json v := by
  obtain ⟨_, hen, hc⟩ := (render_panel_outcome this (.ok c)).mp h
  rw [isEnabledForProject_iff_entry_of_plain this hk] at hen
  cases hl : this.props.integration.config_data_projects.lookup
      (stringOfProp this.props.projectId) with
  | none => simp [hl] at hen
  | some v =>
    refine ⟨v, rfl, ?_⟩
    cases ht : this.props.integration.id.toTemplate with
    | error e => rw [renderConfiguration_of_throw this e ht] at hc; cases hc
    | ok idText =>
      obtain ⟨c2, hc2, _, _, hinit, _⟩ := renderConfiguration_of_text this idText ht
      rw [hc2] at hc
      cases hc
      rw [hinit]
      exact getProperty_of_entry _ _ v hl

/-! ## The claims -/

/-- C1: the output of `render` holds the configuration panel, the result of
`renderConfiguration`, exactly when `state.configuring` is true and
`isEnabledForProject` is true; otherwise it holds no panel. -/
theorem render_configuration_iff (this : Instance) :
    ((render this).configuration = some (renderConfiguration this) ↔
      (this.state.configuring = true ∧ isEnabledForProject this = true)) ∧
    ((render this).configuration = none ↔
      ¬ (this.state.configuring = true ∧ isEnabledForProject this = true)) ∧
    (render this).configuration.isSome = (this.state.configuring && isEnabledForProject this) := by
  unfold render
  cases hc : this.state.configuring <;> cases he : isEnabledForProject this <;> simp

/-- C2, at the failing input: with the empty map `config_data_projects = {}`
and the project id `constructor`, the map has no entry for the project and
`isEnabledForProject` still returns true, because the read finds the
member inherited from `Object.prototype`. -/
theorem isEnabledForProject_inherited_key :
    (sampleIntegration.config_data_projects.lookup "constructor").isSome = false ∧
    isEnabledForProject (Instance.mount (sampleProps "constructor" sampleIntegration)) = true := by
  refine ⟨rfl, rfl⟩

/-- C3: `hasConfiguration` is true exactly when `config_project` or
`config_organization` is non-empty, and false exactly when both are empty. -/
theorem hasConfiguration_iff (this : Instance) :
    (hasConfiguration this = true ↔
      (this.props.integration.config_project ≠ [] ∨
        this.props.integration.config_organization ≠ [])) ∧
    (hasConfiguration this = false ↔
      (this.props.integration.config_project = [] ∧
        this.props.integration.config_organization = [])) := by
  unfold hasConfiguration
  cases this.props.integration.config_project <;>
    cases this.props.integration.config_organization <;> simp

/-- C4: the output of `render` holds the Configure button exactly when
`hasConfiguration` is true; a button that is present is labelled
`Configure` and its `disabled` is the negation of `isEnabledForProject`;
the button is absent exactly when both field lists are empty. -/
theorem configure_button_rule (this : Instance) :
    (render this).panelItem.configure.isSome = hasConfiguration this ∧
    (render this).panelItem.configure.map (fun b => b.disabled) =
      (if hasConfiguration this then some (!isEnabledForProject this) else none) ∧
    (render this).panelItem.configure.map (fun b => b.label) =
      (if hasConfiguration this then some "Configure" else none) ∧
    ((render this).panelItem.configure = none ↔
      (this.props.integration.config_project = [] ∧
        this.props.integration.config_organization = [])) := by
  have h := (hasConfiguration_false_of_lists this)
  unfold render
  cases hc : hasConfiguration this <;> simp [hc] at h ⊢ <;> exact h

/-- C5: the handler passed to `Confirm` as `onConfirm` calls
`props.onRemove` once, with no arguments, and nothing else; so confirming
makes one call and dismissing makes none. The toggle handler and the
Configure handler make no call to `props.onRemove`. (`render` itself only
builds the closures, which is why it is a pure function here.) -/
theorem remove_only_on_confirm (this now : Instance) :
    (render this).panelItem.confirm.onConfirm now =
      .ok { calls := [.onRemove []], state := now.state } ∧
    removeCalls ((render this).panelItem.confirm.answer .confirm now) = 1 ∧
    removeCalls ((render this).panelItem.confirm.answer .dismiss now) = 0 ∧
    removeCalls ((render this).panelItem.switch.toggle now) = 0 ∧
    (render this).panelItem.configure.map (fun b => removeCalls (b.onClick now)) =
      (if hasConfiguration this then some 0 else none) ∧
    removeCalls (onConfigure now) = 0 := by
  refine ⟨rfl, rfl, rfl, ?_, ?_, rfl⟩
  · simp only [render, toggleHandler]
    cases now.props.onToggleEnabled <;> rfl
  · unfold render
    cases hasConfiguration this <;> simp [onConfigure, removeCalls]

/-- C6, as stated, fails: when the optional prop `onToggleEnabled` is not
supplied, the toggle handler throws a `TypeError` and calls nothing. -/
theorem toggle_without_callback_throws :
    propsWithoutToggle.onToggleEnabled.isSome = false ∧
    (render (Instance.mount propsWithoutToggle)).panelItem.switch.toggle
        (Instance.mount propsWithoutToggle) =
      .error (.typeError "this.props.onToggleEnabled is not a function") ∧
    toggleCalls ((render (Instance.mount propsWithoutToggle)).panelItem.switch.toggle
        (Instance.mount propsWithoutToggle)) ≠ 1 := by
  refine ⟨rfl, rfl, by decide⟩

/-- C6, amended: when `props.onToggleEnabled` is supplied, the toggle
handler passed to the `Switch` calls it once, with the negation of
`isEnabledForProject`, and leaves the state as it was; the instance after
the handler is the instance before it, so `isEnabledForProject` and the
`isActive` of the `Switch` are unchanged. -/
theorem toggle_delegates (this : Instance)
    (h : this.props.onToggleEnabled.isSome = true) :
    (render this).panelItem.switch.toggle this =
      .ok { calls := [.onToggleEnabled [.json (.bool (!isEnabledForProject this))]],
            state := this.state } ∧
    toggleCalls ((render this).panelItem.switch.toggle this) = 1 ∧
    this.dispatch (render this).panelItem.switch.toggle = .ok this ∧
    (this.dispatch (render this).panelItem.switch.toggle).map isEnabledForProject =
      .ok (isEnabledForProject this) ∧
    (this.dispatch (render this).panelItem.switch.toggle).map
        (fun after => (render after).panelItem.switch.isActive) =
      .ok (render this).panelItem.switch.isActive := by
  have hrun : (render this).panelItem.switch.toggle this =
      .ok { calls := [.onToggleEnabled [.json (.bool (!isEnabledForProject this))]],
            state := this.state } := by
    simp only [render, toggleHandler]
    cases ht : this.props.onToggleEnabled with
    | none => simp [ht] at h
    | some cb => rfl
  have hdis : this.dispatch (render this).panelItem.switch.toggle = .ok this := by
    simp only [Instance.dispatch, hrun]
  refine ⟨hrun, ?_, hdis, ?_, ?_⟩
  · rw [hrun]; rfl
  · rw [hdis]; rfl
  · rw [hdis]; rfl

/-- Witness for C6: the sample props supply `onToggleEnabled`. -/
theorem toggle_delegates_witness :
    (sampleProps "7" enabledIntegration).onToggleEnabled.isSome = true ∧
    (render (Instance.mount (sampleProps "7" enabledIntegration))).panelItem.switch.toggle
        (Instance.mount (sampleProps "7" enabledIntegration)) =
      .ok { calls := [.onToggleEnabled [.json (.bool false)]],
            state := { configuring := false } } :=
  ⟨rfl, (toggle_delegates (Instance.mount (sampleProps "7" enabledIntegration)) rfl).1⟩

/-- C7: `onConfigure` only negates `configuring` and calls nothing; two
runs of it give back the instance they started from, so `render` after
them is `render` before them; from the initial state of the constructor
the result is the collapsed row, without configuration panel. -/
theorem onConfigure_twice (this : Instance) (p : Props) :
    onConfigure this =
      .ok { calls := [], state := { configuring := !this.state.configuring } } ∧
    (this.dispatch onConfigure >>= fun once => once.dispatch onConfigure) = .ok this ∧
    (this.dispatch onConfigure >>= fun once => once.dispatch onConfigure).map render =
      .ok (render this) ∧
    ((Instance.mount p).dispatch onConfigure >>= fun once => once.dispatch onConfigure) =
      .ok (Instance.mount p) ∧
    (Instance.mount p).state.configuring = false ∧
    (render (Instance.mount p)).configuration = none := by
  have htwice : ∀ i : Instance,
      (i.dispatch onConfigure >>= fun once => once.dispatch onConfigure) = .ok i := by
    intro i
    obtain ⟨props, ⟨c⟩⟩ := i
    simp [Instance.dispatch, onConfigure, bind, Except.bind]
  refine ⟨rfl, htwice this, ?_, htwice _, rfl, rfl⟩
  rw [htwice this]; rfl

/-- C8: `renderConfiguration` returns its two forms exactly when
`integration.id` has a string conversion. Both forms then have method
`POST`, their `dataTransformer` sends the edited values `d` to the object
with the single key `config` and value `d`, the project form posts to
`/projects/<orgId>/<projectId>/integrations/<integration.id>/` and the
organization form to `/organizations/<orgId>/integrations/<integration.id>/`.
For a string or number id and a supplied project id the forms are
returned and the paths hold these very texts. The project path is the
same for two components with the same `orgId`, `projectId` and
`integration.id`, the organization path for two with the same `orgId` and
`integration.id`. An id object with an own `toString` member has no
string conversion: the template literal throws. -/
theorem forms_post_config (this : Instance) (d : Json) :
    ((∃ c, renderConfiguration this = .ok c) ↔
      ∃ idText, this.props.integration.id.toTemplate = .ok idText) ∧
    (∀ c, renderConfiguration this = .ok c →
      c.projectForm.apiMethod = "POST" ∧
      c.organizationForm.apiMethod = "POST" ∧
      c.projectForm.dataTransformer d = .obj [("config", d)] ∧
      c.organizationForm.dataTransformer d = .obj [("config", d)] ∧
      ∃ idText, this.props.integration.id.toTemplate = .ok idText ∧
        c.projectForm.apiEndpoint =
          "/projects/" ++ this.props.orgId ++ "/" ++ stringOfProp this.props.projectId ++
            "/integrations/" ++ idText ++ "/" ∧
        c.organizationForm.apiEndpoint =
          "/organizations/" ++ this.props.orgId ++ "/integrations/" ++ idText ++ "/") ∧
    (∀ pid idText, this.props.projectId = some pid →
      (this.props.integration.id = .str idText ∨ this.props.integration.id = .num idText) →
      ∃ c, renderConfiguration this = .ok c ∧
        c.projectForm.apiMethod = "POST" ∧
        c.organizationForm.apiMethod = "POST" ∧
        c.projectForm.dataTransformer d = .obj [("config", d)] ∧
        c.organizationForm.dataTransformer d = .obj [("config", d)] ∧
        c.projectForm.apiEndpoint =
          "/projects/" ++ this.props.orgId ++ "/" ++ pid ++ "/integrations/" ++ idText ++ "/" ∧
        c.organizationForm.apiEndpoint =
          "/organizations/" ++ this.props.orgId ++ "/integrations/" ++ idText ++ "/") ∧
    (∀ that c c2, that.props.orgId = this.props.orgId →
      that.props.projectId = this.props.projectId →
      that.props.integration.id = this.props.integration.id →
      renderConfiguration this = .ok c → renderConfiguration that = .ok c2 →
      c2.projectForm.apiEndpoint = c.projectForm.apiEndpoint) ∧
    (∀ that c c2, that.props.orgId = this.props.orgId →
      that.props.integration.id = this.props.integration.id →
      renderConfiguration this = .ok c → renderConfiguration that = .ok c2 →
      c2.organizationForm.apiEndpoint = c.organizationForm.apiEndpoint) ∧
    (∀ members v, this.props.integration.id = .obj members →
      members.lookup "toString" = some v →
      renderConfiguration this = .error noPrimitive) := by
  have hret : ∀ (i : Instance) (c : ConfigurationEl), renderConfiguration i = .ok c →
      ∃ idText, i.props.integration.id.toTemplate = .ok idText ∧
        c.projectForm.toFormProps = formProps ∧
        c.organizationForm.toFormProps = formProps ∧
        c.projectForm.apiEndpoint =
          "/projects/" ++ i.props.orgId ++ "/" ++ stringOfProp i.props.projectId ++
            "/integrations/" ++ idText ++ "/" ∧
        c.organizationForm.apiEndpoint =
          "/organizations/" ++ i.props.orgId ++ "/integrations/" ++ idText ++ "/" := by
    intro i c hc
    cases ht : i.props.integration.id.toTemplate with
    | error e => rw [renderConfiguration_of_throw i e ht] at hc; cases hc
    | ok idText =>
      obtain ⟨c2, hc2, hp, ho, _, hpe, hoe⟩ := renderConfiguration_of_text i idText ht
      rw [hc2] at hc
      cases hc
      exact ⟨idText, rfl, hp, ho, hpe, hoe⟩
  refine ⟨⟨?_, ?_⟩, ?_, ?_, ?_, ?_, ?_⟩
  · rintro ⟨c, hc⟩
    cases ht : this.props.integration.id.toTemplate with
    | error e => rw [renderConfiguration_of_throw this e ht] at hc; cases hc
    | ok idText => exact ⟨idText, rfl⟩
  · rintro ⟨idText, ht⟩
    obtain ⟨c, hc, _⟩ := renderConfiguration_of_text this idText ht
    exact ⟨c, hc⟩
  · intro c hc
    obtain ⟨idText, ht, hp, ho, hpe, hoe⟩ := hret this c hc
    refine ⟨?_, ?_, ?_, ?_, idText, ht, hpe, hoe⟩
    · rw [hp]; rfl
    · rw [ho]; rfl
    · rw [hp]; rfl
    · rw [ho]; rfl
  · intro pid idText hpid hid
    have ht : this.props.integration.id.toTemplate = .ok idText := by
      rcases hid with hid | hid <;> rw [hid] <;> rfl
    obtain ⟨c, hc, hp, ho, _, hpe, hoe⟩ := renderConfiguration_of_text this idText ht
    rw [hpid] at hpe
    refine ⟨c, hc, ?_, ?_, ?_, ?_, hpe, hoe⟩
    · rw [hp]; rfl
    · rw [ho]; rfl
    · rw [hp]; rfl
    · rw [ho]; rfl
  · intro that c c2 horg hproj hid hc hc2
    obtain ⟨t1, ht1, _, _, hpe1, _⟩ := hret this c hc
    obtain ⟨t2, ht2, _, _, hpe2, _⟩ := hret that c2 hc2
    rw [hid, ht1] at ht2
    cases ht2
    rw [hpe1, hpe2, horg, hproj]
  · intro that c c2 horg hid hc hc2
    obtain ⟨t1, ht1, _, _, _, hoe1⟩ := hret this c hc
    obtain ⟨t2, ht2, _, _, _, hoe2⟩ := hret that c2 hc2
    rw [hid, ht1] at ht2
    cases ht2
    rw [hoe1, hoe2, horg]
  · intro members v hid hv
    apply renderConfiguration_of_throw
    rw [hid]
    simp [Json.toTemplate, hv]

/-- Witness for C8: organization `acme`, project `7`, integration id `1`:
the forms are returned and post to `/projects/acme/7/integrations/1/` and
`/organizations/acme/integrations/1/`. -/
theorem forms_post_config_witness :
    ∃ c, renderConfiguration expandedSample = .ok c ∧
      c.projectForm.apiMethod = "POST" ∧
      c.organizationForm.apiMethod = "POST" ∧
      c.projectForm.dataTransformer (.obj [("channel", .str "general")]) =
        .obj [("config", .obj [("channel", .str "general")])] ∧
      c.organizationForm.dataTransformer (.obj [("channel", .str "general")]) =
        .obj [("config", .obj [("channel", .str "general")])] ∧
      c.projectForm.apiEndpoint = "/projects/acme/7/integrations/1/" ∧
      c.organizationForm.apiEndpoint = "/organizations/acme/integrations/1/" :=
  (forms_post_config expandedSample (.obj [("channel", .str "general")])).2.2.1
    "7" "1" rfl (Or.inr rfl)

/-- C9: mount with props for which the integration is enabled and run
`onConfigure` once: the panel is shown. Change the props to ones for which
it is not enabled: the panel is not rendered. Change them again to ones
for which it is enabled, without running `onConfigure`: the panel is
rendered again, since a change of props keeps `state.configuring`. -/
theorem panel_reappears_expanded (p1 p2 p3 : Props)
    (h1 : isEnabledForProject (Instance.mount p1) = true)
    (h2 : isEnabledForProject (Instance.mount p2) = false)
    (h3 : isEnabledForProject (Instance.mount p3) = true) :
    ∃ expanded : Instance,
      (Instance.mount p1).dispatch onConfigure = .ok expanded ∧
      (render expanded).configuration = some (renderConfiguration expanded) ∧
      (render (expanded.setProps p2)).configuration = none ∧
      (render ((expanded.setProps p2).setProps p3)).configuration =
        some (renderConfiguration ((expanded.setProps p2).setProps p3)) ∧
      ((expanded.setProps p2).setProps p3).state.configuring = true := by
  refine ⟨{ props := p1, state := { configuring := true } }, rfl, ?_, ?_, ?_, rfl⟩
  · have h : isEnabledForProject { props := p1, state := { configuring := true } } = true := h1
    simp [render, h]
  · have h : isEnabledForProject
        (Instance.setProps { props := p1, state := { configuring := true } } p2) = false := h2
    simp [render, h]
  · have h : isEnabledForProject (Instance.setProps
        (Instance.setProps { props := p1, state := { configuring := true } } p2) p3) = true := h3
    have hs : (Instance.setProps
        (Instance.setProps { props := p1, state := { configuring := true } } p2) p3).state.configuring
          = true := rfl
    simp [render, h, hs]

/-- Witness for C9: enabled for project `7`, then the empty map, then
enabled again. -/
theorem panel_reappears_expanded_witness :
    isEnabledForProject (Instance.mount (sampleProps "7" enabledIntegration)) = true ∧
    isEnabledForProject (Instance.mount (sampleProps "7" sampleIntegration)) = false ∧
    ∃ expanded : Instance,
      (Instance.mount (sampleProps "7" enabledIntegration)).dispatch onConfigure = .ok expanded ∧
      (render expanded).configuration = some (renderConfiguration expanded) ∧
      (render (expanded.setProps (sampleProps "7" sampleIntegration))).configuration = none ∧
      (render ((expanded.setProps (sampleProps "7" sampleIntegration)).setProps
          (sampleProps "7" enabledIntegration))).configuration =
        some (renderConfiguration ((expanded.setProps (sampleProps "7" sampleIntegration)).setProps
          (sampleProps "7" enabledIntegration))) ∧
      ((expanded.setProps (sampleProps "7" sampleIntegration)).setProps
          (sampleProps "7" enabledIntegration)).state.configuring = true :=
  ⟨rfl, rfl, panel_reappears_expanded (sampleProps "7" enabledIntegration)
    (sampleProps "7" sampleIntegration) (sampleProps "7" enabledIntegration) rfl rfl rfl⟩

/-- C10, at the failing input: with the empty map
`config_data_projects = {}`, the project id `constructor` and the panel
expanded, `render` holds the configuration panel although the map has no
entry for the project, and the `initialData` of the project form is the
member `constructor` inherited from `Object.prototype`, not an entry of
the map. -/
theorem panel_initialData_inherited :
    (sampleIntegration.config_data_projects.lookup "constructor").isSome = false ∧
    (render inheritedKeySample).configuration = some (renderConfiguration inheritedKeySample) ∧
    (renderConfiguration inheritedKeySample).map (fun c => c.projectForm.initialData) =
      .ok (.builtin "constructor") := by
  refine ⟨rfl, rfl, rfl⟩

end InstalledIntegration
